import Mathlib

/-!
# stl-organizer: the entry point `main` (src/main.go)

`main` is one straight-line Go function: it prints a line, asks the webview
toolkit for a window, defers the window's release, configures the window with
three calls and enters the toolkit's run loop.

The development below embeds that function as a computation over an explicit
frame (the trace of external calls performed so far and the stack of deferred
calls), with the toolkit and the standard library taken as a parameter `Env`:
for each external call, `fmt.Println` included, the environment says whether
the call returns, panics, or never returns.  Go's rule for `defer` is part of
the embedding: deferred calls run, last registered first, when the function
body returns or panics, and do not run when a call never gives control back.
-/

namespace StlOrganizer

/-! ## Data model -/

/-- Resize hint of the toolkit (`webview.Hint`); `main` only uses `HintNone`. -/
inductive Hint
  | HintNone
  | HintMin
  | HintMax
  | HintFixed
  deriving DecidableEq

/-- The value `webview.New` hands back.  `main` never looks inside it and only
uses it as the receiver of later calls; whether it denotes a usable window is
known to the toolkit alone and shows in how the calls made on it end.  The
handle is a value on which a method call can be issued (the toolkit's wrapper
object around the native window, which may be null). -/
abbrev WebView := Nat

/-- One external effect of `main`, recorded when the call is issued: the text
handed to standard output by a print call, or a call into the toolkit with its
arguments.  How the call ends, and for a print how much of the text was
written, is in the outcome the environment gives, not in the event. -/
inductive Event
  | Stdout (text : String)
  | New (debug : Bool)
  | SetTitle (w : WebView) (title : String)
  | SetSize (w : WebView) (width : Int) (height : Int) (hint : Hint)
  | Navigate (w : WebView) (url : String)
  | Run (w : WebView)
  | Destroy (w : WebView)
  deriving DecidableEq

/-- How an external call ends: it returns a value, it panics, or it never
gives control back (it blocks forever or ends the process). -/
inductive Outcome (α : Type)
  | ret (a : α)
  | panics
  | noReturn
  deriving DecidableEq

/-- The collaborators of `main`.  `Println` gives the outcome of `fmt.Println`
on its operand: it returns the `(n, err)` pair (bytes written, `true` for a
non-nil error), it panics, or it never returns (the process is ended by the
write to a closed pipe, or the write blocks).  The other fields give the
outcome of each toolkit call on its arguments. -/
structure Env where
  Println : String → Outcome (Nat × Bool)
  New : Bool → Outcome WebView
  SetTitle : WebView → String → Outcome Unit
  SetSize : WebView → Int → Int → Hint → Outcome Unit
  Navigate : WebView → String → Outcome Unit
  Run : WebView → Outcome Unit
  Destroy : WebView → Outcome Unit

/-! ## Execution of a Go function body -/

/-- The state of one activation of a function: the calls performed so far, in
order, and the deferred calls, most recently registered first. -/
structure Frame where
  trace : List Event
  deferred : List Event

/-- Result of running a piece of a function body. -/
inductive Step (α : Type)
  | next (a : α) (fr : Frame)
  | panicking (fr : Frame)
  | halted (fr : Frame)

/-- Computations of a function body. -/
def Go (α : Type) : Type := Frame → Step α

/-- Sequencing: the rest of the body runs only when the first part completes
normally. -/
def Go.bind {α β : Type} (m : Go α) (f : α → Go β) : Go β := fun fr =>
  match m fr with
  | Step.next a fr1 => f a fr1
  | Step.panicking fr1 => Step.panicking fr1
  | Step.halted fr1 => Step.halted fr1

instance : Monad Go where
  pure a := fun fr => Step.next a fr
  bind := Go.bind

/-- Perform an external call: record it, then continue according to its
outcome. -/
def call {α : Type} (e : Event) (o : Outcome α) : Go α := fun fr =>
  let fr1 : Frame := { fr with trace := fr.trace ++ [e] }
  match o with
  | Outcome.ret a => Step.next a fr1
  | Outcome.panics => Step.panicking fr1
  | Outcome.noReturn => Step.halted fr1

/-- The statement `defer c`: the call and its receiver are recorded, the call
is not performed, and nothing of the toolkit runs. -/
def deferCall (c : Event) : Go Unit := fun fr =>
  Step.next () { fr with deferred := c :: fr.deferred }

/-- Outcome of a call statement whose result is dropped. -/
def Env.invoke (env : Env) : Event → Outcome Unit
  | Event.Stdout _ => Outcome.ret ()
  | Event.New d =>
    match env.New d with
    | Outcome.ret _ => Outcome.ret ()
    | Outcome.panics => Outcome.panics
    | Outcome.noReturn => Outcome.noReturn
  | Event.SetTitle w t => env.SetTitle w t
  | Event.SetSize w width height hint => env.SetSize w width height hint
  | Event.Navigate w url => env.Navigate w url
  | Event.Run w => env.Run w
  | Event.Destroy w => env.Destroy w

/-- A call statement `w.M(args)`. -/
def exec (env : Env) (c : Event) : Go Unit := call c (env.invoke c)

/-- How an activation ends. -/
inductive Status
  | returned
  | panicked
  | noReturn
  deriving DecidableEq

/-- The observable result of an activation. -/
structure Result where
  trace : List Event
  status : Status
  deriving DecidableEq

/-- Run the deferred calls, most recent first.  A deferred call that panics
replaces the current status by a panic and the remaining deferred calls still
run; one that never returns ends the run. -/
def runDeferred (env : Env) : List Event → Status → List Event → Result
  | [], st, tr => { trace := tr, status := st }
  | d :: ds, st, tr =>
    match env.invoke d with
    | Outcome.ret _ => runDeferred env ds st (tr ++ [d])
    | Outcome.panics => runDeferred env ds Status.panicked (tr ++ [d])
    | Outcome.noReturn => { trace := tr ++ [d], status := Status.noReturn }

/-- Run a function body in a fresh frame, then its deferred calls. -/
def runFunc (env : Env) (body : Go Unit) : Result :=
  match body { trace := [], deferred := [] } with
  | Step.next _ fr => runDeferred env fr.deferred Status.returned fr.trace
  | Step.panicking fr => runDeferred env fr.deferred Status.panicked fr.trace
  | Step.halted fr => { trace := fr.trace, status := Status.noReturn }

/-! ## The program -/

/-- The call `fmt.Println(s)` with one string operand: the operand and a
newline are handed to standard output, and the call ends as the environment
says; when it returns, it returns the `(n, err)` pair. -/
def fmtPrintln (env : Env) (s : String) : Go (Nat × Bool) :=
  call (Event.Stdout (s ++ "\n")) (env.Println s)

/-- The call `webview.New(debug)`. -/
def webviewNew (env : Env) (debug : Bool) : Go WebView :=
  call (Event.New debug) (env.New debug)

/-- Body of `main` (src/main.go, lines 6 to 16). -/
def mainBody (env : Env) : Go Unit := do
  let _ ← fmtPrintln env "Hello, World"
  let debug := true
  let w ← webviewNew env debug
  deferCall (Event.Destroy w)
  exec env (Event.SetTitle w "Minimal Webview Example")
  exec env (Event.SetSize w 800 600 Hint.HintNone)
  exec env (Event.Navigate w "https://en.m.wikipedia.org/wiki/Main_Page")
  exec env (Event.Run w)

/-- One run of the program. -/
def main (env : Env) : Result := runFunc env (mainBody env)

/-! ## Closed form of the runs of `main`

The same runs, written out call by call; `main_eq_mainPaths` below shows that
the embedding of the source computes exactly this. -/

/-- The output line of `main`, as it reaches standard output. -/
def helloLine : Event := Event.Stdout "Hello, World\n"

/-- The title literal of `main`. -/
def title : String := "Minimal Webview Example"

/-- The URL literal of `main`. -/
def url : String := "https://en.m.wikipedia.org/wiki/Main_Page"

/-- The deferred `w.Destroy()` is performed after trace `tr`, the body having
ended with status `st`. -/
def unwind (env : Env) (w : WebView) (st : Status) (tr : List Event) : Result :=
  match env.Destroy w with
  | Outcome.ret _ => { trace := tr ++ [Event.Destroy w], status := st }
  | Outcome.panics => { trace := tr ++ [Event.Destroy w], status := Status.panicked }
  | Outcome.noReturn => { trace := tr ++ [Event.Destroy w], status := Status.noReturn }

/-- Every run of `main` in which the print call returned, by the outcome of
each toolkit call in turn. -/
def windowPaths (env : Env) : Result :=
  match env.New true with
  | Outcome.panics => ⟨[helloLine, Event.New true], Status.panicked⟩
  | Outcome.noReturn => ⟨[helloLine, Event.New true], Status.noReturn⟩
  | Outcome.ret w =>
    match env.SetTitle w title with
    | Outcome.panics => unwind env w Status.panicked [helloLine, Event.New true, Event.SetTitle w title]
    | Outcome.noReturn => ⟨[helloLine, Event.New true, Event.SetTitle w title], Status.noReturn⟩
    | Outcome.ret _ =>
      match env.SetSize w 800 600 Hint.HintNone with
      | Outcome.panics => unwind env w Status.panicked
          [helloLine, Event.New true, Event.SetTitle w title, Event.SetSize w 800 600 Hint.HintNone]
      | Outcome.noReturn => ⟨[helloLine, Event.New true, Event.SetTitle w title,
          Event.SetSize w 800 600 Hint.HintNone], Status.noReturn⟩
      | Outcome.ret _ =>
        match env.Navigate w url with
        | Outcome.panics => unwind env w Status.panicked
            [helloLine, Event.New true, Event.SetTitle w title, Event.SetSize w 800 600 Hint.HintNone,
              Event.Navigate w url]
        | Outcome.noReturn => ⟨[helloLine, Event.New true, Event.SetTitle w title,
            Event.SetSize w 800 600 Hint.HintNone, Event.Navigate w url], Status.noReturn⟩
        | Outcome.ret _ =>
          match env.Run w with
          | Outcome.panics => unwind env w Status.panicked
              [helloLine, Event.New true, Event.SetTitle w title, Event.SetSize w 800 600 Hint.HintNone,
                Event.Navigate w url, Event.Run w]
          | Outcome.noReturn => ⟨[helloLine, Event.New true, Event.SetTitle w title,
              Event.SetSize w 800 600 Hint.HintNone, Event.Navigate w url, Event.Run w], Status.noReturn⟩
          | Outcome.ret _ => unwind env w Status.returned
              [helloLine, Event.New true, Event.SetTitle w title, Event.SetSize w 800 600 Hint.HintNone,
                Event.Navigate w url, Event.Run w]

/-- Every run of `main`, by the outcome of each call in turn. -/
def mainPaths (env : Env) : Result :=
  match env.Println "Hello, World" with
  | Outcome.panics => ⟨[helloLine], Status.panicked⟩
  | Outcome.noReturn => ⟨[helloLine], Status.noReturn⟩
  | Outcome.ret _ => windowPaths env

/-! ## Vocabulary for statements about traces -/

/-- A write to standard output. -/
def Event.isStdout : Event → Bool
  | Event.Stdout _ => true
  | _ => false

/-- A call of `webview.New`. -/
def Event.isNew : Event → Bool
  | Event.New _ => true
  | _ => false

/-- A call of `SetTitle`. -/
def Event.isSetTitle : Event → Bool
  | Event.SetTitle _ _ => true
  | _ => false

/-- A call of `SetSize`. -/
def Event.isSetSize : Event → Bool
  | Event.SetSize _ _ _ _ => true
  | _ => false

/-- A call of `Navigate`. -/
def Event.isNavigate : Event → Bool
  | Event.Navigate _ _ => true
  | _ => false

/-- A call of `Run`. -/
def Event.isRun : Event → Bool
  | Event.Run _ => true
  | _ => false

/-- A call of `Destroy`. -/
def Event.isDestroy : Event → Bool
  | Event.Destroy _ => true
  | _ => false

/-- A call into the toolkit (anything but the write to standard output). -/
def Event.isToolkitCall (e : Event) : Bool := !e.isStdout

/-- A configuration call: `SetTitle`, `SetSize` or `Navigate`. -/
def Event.isConfig (e : Event) : Bool := e.isSetTitle || e.isSetSize || e.isNavigate

/-- A call made on a window: a configuration call or `Run`. -/
def Event.isWindowUse (e : Event) : Bool := e.isConfig || e.isRun

/-- The window a call is made on, when it is a method call. -/
def Event.receiver : Event → Option WebView
  | Event.Stdout _ => none
  | Event.New _ => none
  | Event.SetTitle w _ => some w
  | Event.SetSize w _ _ _ => some w
  | Event.Navigate w _ => some w
  | Event.Run w => some w
  | Event.Destroy w => some w

/-- Every event satisfying `p` stands at a smaller index than every event
satisfying `q`. -/
def AllBefore (p q : Event → Bool) (tr : List Event) : Prop :=
  ∀ (i j : Nat) (e1 e2 : Event), tr[i]? = some e1 → tr[j]? = some e2 →
    p e1 = true → q e2 = true → i < j

/-- Executable check of `AllBefore`. -/
def allBefore (p q : Event → Bool) : List Event → Bool
  | [] => true
  | e :: es => (!q e || (!p e && es.all (fun x => !p x))) && allBefore p q es

/-- Check `P pre e` for every event `e` of a list, `pre` being the events
before it. -/
def checkEach (P : List Event → Event → Bool) : List Event → List Event → Bool
  | _, [] => true
  | pre, e :: es => P pre e && checkEach P (pre ++ [e]) es

/-- One step of the count of live windows, `h` being the handle `webview.New`
hands back: a handle is live from its `New` event until its `Destroy` event. -/
def liveStep (h : WebView) (live : List WebView) : Event → List WebView
  | Event.New _ => h :: live
  | Event.Destroy w => live.erase w
  | _ => live

/-- The handles live after a sequence of events. -/
def liveAfter (h : WebView) (tr : List Event) : List WebView :=
  tr.foldl (liveStep h) []

/-- The two states of the window between its creation and its release. -/
inductive Phase
  | Configuring
  | Running
  deriving DecidableEq

/-- One step of the state machine: creation enters `Configuring`, the run call
takes `Configuring` to `Running`, no other call changes the state. -/
def phaseStep : Option Phase → Event → Option Phase
  | _, Event.New _ => some Phase.Configuring
  | some Phase.Configuring, Event.Run _ => some Phase.Running
  | p, _ => p

/-- The state after a sequence of events (`none` before creation). -/
def phaseAfter (tr : List Event) : Option Phase :=
  tr.foldl phaseStep none

/-- The same call, made on the window `h`. -/
def Event.onHandle (h : WebView) : Event → Event
  | Event.Stdout s => Event.Stdout s
  | Event.New d => Event.New d
  | Event.SetTitle _ t => Event.SetTitle h t
  | Event.SetSize _ a b c => Event.SetSize h a b c
  | Event.Navigate _ u => Event.Navigate h u
  | Event.Run _ => Event.Run h
  | Event.Destroy _ => Event.Destroy h

/-- An environment in which every call returns normally and `webview.New`
hands back the handle 7. -/
def envOk : Env where
  Println := fun s => Outcome.ret (s.length + 1, false)
  New := fun _ => Outcome.ret 7
  SetTitle := fun _ _ => Outcome.ret ()
  SetSize := fun _ _ _ _ => Outcome.ret ()
  Navigate := fun _ _ => Outcome.ret ()
  Run := fun _ => Outcome.ret ()
  Destroy := fun _ => Outcome.ret ()

/-- As `envOk`, but standard output is a closed pipe: the print call never
returns. -/
def envClosedStdout : Env := { envOk with Println := fun _ => Outcome.noReturn }

/-- As `envOk`, but `SetSize` panics. -/
def envSizePanics : Env := { envOk with SetSize := fun _ _ _ _ => Outcome.panics }

/-- As `envOk`, but `webview.New` hands back the null handle 0, on which every
method call panics. -/
def envNullHandle : Env where
  Println := fun s => Outcome.ret (s.length + 1, false)
  New := fun _ => Outcome.ret 0
  SetTitle := fun w _ => if w = 0 then Outcome.panics else Outcome.ret ()
  SetSize := fun w _ _ _ => if w = 0 then Outcome.panics else Outcome.ret ()
  Navigate := fun w _ => if w = 0 then Outcome.panics else Outcome.ret ()
  Run := fun w => if w = 0 then Outcome.panics else Outcome.ret ()
  Destroy := fun w => if w = 0 then Outcome.panics else Outcome.ret ()

/-! ## The embedding computes the closed form -/

theorem main_eq_mainPaths (env : Env) : main env = mainPaths env := by
  unfold mainPaths windowPaths
  cases hP : env.Println "Hello, World" with
  | panics =>
    simp [main, runFunc, mainBody, bind, Go.bind, fmtPrintln, call, hP, runDeferred, helloLine]
  | noReturn =>
    simp [main, runFunc, mainBody, bind, Go.bind, fmtPrintln, call, hP, runDeferred, helloLine]
  | ret r =>
    cases hN : env.New true with
    | panics =>
      simp [main, runFunc, mainBody, bind, Go.bind, fmtPrintln, webviewNew, call, hP, hN,
        runDeferred, helloLine]
    | noReturn =>
      simp [main, runFunc, mainBody, bind, Go.bind, fmtPrintln, webviewNew, call, hP, hN,
        runDeferred, helloLine]
    | ret w =>
      cases hT : env.SetTitle w title <;> cases hD : env.Destroy w <;>
      simp only [title] at hT <;>
      (try (simp [main, runFunc, mainBody, bind, Go.bind, fmtPrintln, webviewNew, call,
        deferCall, exec, Env.invoke, hP, hN, hT, hD, runDeferred, helloLine, unwind,
        title]; done)) <;>
      cases hS : env.SetSize w 800 600 Hint.HintNone <;>
      (try (simp [main, runFunc, mainBody, bind, Go.bind, fmtPrintln, webviewNew, call,
        deferCall, exec, Env.invoke, hP, hN, hT, hD, hS, runDeferred, helloLine, unwind,
        title]; done)) <;>
      cases hV : env.Navigate w url <;>
      simp only [url] at hV <;>
      (try (simp [main, runFunc, mainBody, bind, Go.bind, fmtPrintln, webviewNew, call,
        deferCall, exec, Env.invoke, hP, hN, hT, hD, hS, hV, runDeferred, helloLine, unwind,
        title, url]; done)) <;>
      cases hR : env.Run w <;>
      simp [main, runFunc, mainBody, bind, Go.bind, fmtPrintln, webviewNew, call, deferCall,
        exec, Env.invoke, hP, hN, hT, hD, hS, hV, hR, runDeferred, helloLine, unwind, title, url]

/-! ## Soundness of the executable checks -/

theorem allBefore_sound (p q : Event → Bool) (tr : List Event) (h : allBefore p q tr = true) :
    AllBefore p q tr := by
  induction tr with
  | nil => intro i j e1 e2 h1; simp at h1
  | cons e es ih =>
    simp only [allBefore, Bool.and_eq_true, Bool.or_eq_true, Bool.not_eq_true',
      List.all_eq_true] at h
    obtain ⟨hq, hes⟩ := h
    intro i j e1 e2 h1 h2 hp hq2
    cases j with
    | zero =>
      simp at h2
      subst h2
      rcases hq with hq | ⟨hpe, hall⟩
      · simp [hq] at hq2
      · cases i with
        | zero => simp at h1; subst h1; simp [hpe] at hp
        | succ i =>
          simp at h1
          have := hall e1 (List.getElem?_mem h1)
          simp [hp] at this
    | succ j =>
      cases i with
      | zero => omega
      | succ i =>
        simp at h1 h2
        have := ih hes i j e1 e2 h1 h2 hp hq2
        omega

theorem checkEach_sound (P : List Event → Event → Bool) (es pre : List Event)
    (h : checkEach P pre es = true) (k : Nat) (e : Event) (hk : es[k]? = some e) :
    P (pre ++ es.take k) e = true := by
  induction es generalizing pre k with
  | nil => simp at hk
  | cons x xs ih =>
    simp only [checkEach, Bool.and_eq_true] at h
    cases k with
    | zero => simp at hk; subst hk; simpa using h.1
    | succ k =>
      simp at hk
      have := ih (pre ++ [x]) h.2 k hk
      simpa using this

/-! ## The shapes of the trace -/

/-- The traces of a run in which the window was created. -/
theorem main_trace_shape (env : Env) (h : WebView) (r : Nat × Bool)
    (hP : env.Println "Hello, World" = Outcome.ret r)
    (hN : env.New true = Outcome.ret h) :
    (main env).trace = [helloLine, Event.New true, Event.SetTitle h title] ∨
    (main env).trace = [helloLine, Event.New true, Event.SetTitle h title,
      Event.SetSize h 800 600 Hint.HintNone] ∨
    (main env).trace = [helloLine, Event.New true, Event.SetTitle h title,
      Event.SetSize h 800 600 Hint.HintNone, Event.Navigate h url] ∨
    (main env).trace = [helloLine, Event.New true, Event.SetTitle h title,
      Event.SetSize h 800 600 Hint.HintNone, Event.Navigate h url, Event.Run h] ∨
    (main env).trace = [helloLine, Event.New true, Event.SetTitle h title, Event.Destroy h] ∨
    (main env).trace = [helloLine, Event.New true, Event.SetTitle h title,
      Event.SetSize h 800 600 Hint.HintNone, Event.Destroy h] ∨
    (main env).trace = [helloLine, Event.New true, Event.SetTitle h title,
      Event.SetSize h 800 600 Hint.HintNone, Event.Navigate h url, Event.Destroy h] ∨
    (main env).trace = [helloLine, Event.New true, Event.SetTitle h title,
      Event.SetSize h 800 600 Hint.HintNone, Event.Navigate h url, Event.Run h,
      Event.Destroy h] := by
  rw [main_eq_mainPaths]
  simp only [mainPaths, windowPaths, hP, unwind, hN]
  repeat' split
  all_goals simp

/-- The four traces of a run in which the window was created and `main` exits. -/
theorem main_exit_trace (env : Env) (h : WebView) (r : Nat × Bool)
    (hP : env.Println "Hello, World" = Outcome.ret r)
    (hN : env.New true = Outcome.ret h)
    (hExit : (main env).status ≠ Status.noReturn) :
    (main env).trace = [helloLine, Event.New true, Event.SetTitle h title, Event.Destroy h] ∨
    (main env).trace = [helloLine, Event.New true, Event.SetTitle h title,
      Event.SetSize h 800 600 Hint.HintNone, Event.Destroy h] ∨
    (main env).trace = [helloLine, Event.New true, Event.SetTitle h title,
      Event.SetSize h 800 600 Hint.HintNone, Event.Navigate h url, Event.Destroy h] ∨
    (main env).trace = [helloLine, Event.New true, Event.SetTitle h title,
      Event.SetSize h 800 600 Hint.HintNone, Event.Navigate h url, Event.Run h,
      Event.Destroy h] := by
  rw [main_eq_mainPaths] at hExit ⊢
  simp only [mainPaths, windowPaths, hP, unwind, hN] at hExit ⊢
  repeat' split
  all_goals simp_all

/-- When the print call never returns, the run ends there: no toolkit call is
made. -/
theorem main_closed_stdout :
    main envClosedStdout =
      { trace := [Event.Stdout "Hello, World\n"], status := Status.noReturn } := by
  rfl

/-! ## The claims -/

/-- C1: when the print call returns, `webview.New` returns a handle `h` and
every toolkit call returns normally, the run of `main` returns and its trace
is exactly the seven events
print "Hello, World", New(true), SetTitle, SetSize(800, 600, HintNone),
Navigate, Run, Destroy, in this order, with the literal title and URL; one
window is created and it is released once. -/
theorem C1_nominal_trace (env : Env) (h : WebView) (r : Nat × Bool)
    (hP : env.Println "Hello, World" = Outcome.ret r)
    (hN : env.New true = Outcome.ret h)
    (hT : env.SetTitle h "Minimal Webview Example" = Outcome.ret ())
    (hS : env.SetSize h 800 600 Hint.HintNone = Outcome.ret ())
    (hV : env.Navigate h "https://en.m.wikipedia.org/wiki/Main_Page" = Outcome.ret ())
    (hR : env.Run h = Outcome.ret ())
    (hD : env.Destroy h = Outcome.ret ()) :
    main env =
      { trace := [Event.Stdout "Hello, World\n", Event.New true,
          Event.SetTitle h "Minimal Webview Example",
          Event.SetSize h 800 600 Hint.HintNone,
          Event.Navigate h "https://en.m.wikipedia.org/wiki/Main_Page",
          Event.Run h, Event.Destroy h],
        status := Status.returned } ∧
    (main env).trace.length = 7 ∧
    (main env).trace.countP Event.isNew = 1 ∧
    (main env).trace.countP Event.isDestroy = 1 := by
  have hmain : main env = mainPaths env := main_eq_mainPaths env
  simp only [mainPaths, windowPaths, hP, unwind, title, url, helloLine, hN, hT, hS, hV, hR,
    hD] at hmain
  rw [hmain]
  simp [Event.isNew, Event.isDestroy, List.countP_cons]

/-- Witness of C1 in the environment `envOk`. -/
theorem C1_nominal_trace_witness :
    main envOk =
      { trace := [Event.Stdout "Hello, World\n", Event.New true,
          Event.SetTitle 7 "Minimal Webview Example",
          Event.SetSize 7 800 600 Hint.HintNone,
          Event.Navigate 7 "https://en.m.wikipedia.org/wiki/Main_Page",
          Event.Run 7, Event.Destroy 7],
        status := Status.returned } ∧
    (main envOk).trace.length = 7 ∧
    (main envOk).trace.countP Event.isNew = 1 ∧
    (main envOk).trace.countP Event.isDestroy = 1 :=
  C1_nominal_trace envOk 7 (13, false) rfl rfl rfl rfl rfl rfl rfl

/-- C2: in every run of `main` in which the print call returned and `webview.New`
returned a handle `h`
and `main` exits (by returning or by panicking, whichever of SetTitle, SetSize,
Navigate or Run panicked), Destroy is invoked exactly once, on `h`, and it is
the last event of the trace; whenever Run was called, Destroy comes right after
it, and when `main` returns normally Run has returned before. -/
theorem C2_destroy_on_every_exit (env : Env) (h : WebView) (r : Nat × Bool)
    (hP : env.Println "Hello, World" = Outcome.ret r)
    (hN : env.New true = Outcome.ret h)
    (hExit : (main env).status ≠ Status.noReturn) :
    (main env).trace.countP Event.isDestroy = 1 ∧
    (∀ e ∈ (main env).trace, e.isDestroy = true → e = Event.Destroy h) ∧
    (main env).trace.getLast? = some (Event.Destroy h) ∧
    AllBefore Event.isRun Event.isDestroy (main env).trace ∧
    (Event.Run h ∈ (main env).trace →
      ∃ pre, (main env).trace = pre ++ [Event.Run h, Event.Destroy h]) ∧
    ((main env).status = Status.returned →
      env.Run h = Outcome.ret () ∧ Event.Run h ∈ (main env).trace) := by
  rw [main_eq_mainPaths] at hExit ⊢
  simp only [mainPaths, windowPaths, hP, unwind, hN] at hExit ⊢
  refine ⟨?_, ?_, ?_, ?_, ?_, ?_⟩
  · repeat' split
    all_goals simp_all [helloLine, Event.isDestroy, List.countP_cons]
  · repeat' split
    all_goals simp_all [helloLine, Event.isDestroy]
  · repeat' split
    all_goals simp_all [helloLine]
  · apply allBefore_sound
    repeat' split
    all_goals simp_all [helloLine, allBefore, Event.isDestroy, Event.isRun]
  · repeat' split
    all_goals simp_all [helloLine]
    all_goals exact ⟨[Event.Stdout "Hello, World\n", Event.New true, Event.SetTitle h title,
      Event.SetSize h 800 600 Hint.HintNone, Event.Navigate h url], by simp⟩
  · repeat' split
    all_goals simp_all [helloLine]

/-- Witness of C2: `SetSize` panics, the deferred Destroy still runs. -/
theorem C2_destroy_on_every_exit_witness :
    (main envSizePanics).trace.countP Event.isDestroy = 1 ∧
    (∀ e ∈ (main envSizePanics).trace, e.isDestroy = true → e = Event.Destroy 7) ∧
    (main envSizePanics).trace.getLast? = some (Event.Destroy 7) ∧
    AllBefore Event.isRun Event.isDestroy (main envSizePanics).trace ∧
    (Event.Run 7 ∈ (main envSizePanics).trace →
      ∃ pre, (main envSizePanics).trace = pre ++ [Event.Run 7, Event.Destroy 7]) ∧
    ((main envSizePanics).status = Status.returned →
      envSizePanics.Run 7 = Outcome.ret () ∧ Event.Run 7 ∈ (main envSizePanics).trace) :=
  C2_destroy_on_every_exit envSizePanics 7 (13, false) rfl rfl (by decide)

/-- C3: in every run of `main` the first event is the write of the line
"Hello, World" followed by a newline to standard output; it is the only write,
so it occurs exactly once, and every toolkit call comes strictly after it;
when the print call returns, `webview.New(true)` is the very next event. -/
theorem C3_hello_first (env : Env) :
    (main env).trace.head? = some (Event.Stdout "Hello, World\n") ∧
    (main env).trace.countP Event.isStdout = 1 ∧
    (∀ e ∈ (main env).trace, e.isStdout = true → e = Event.Stdout "Hello, World\n") ∧
    AllBefore Event.isStdout Event.isToolkitCall (main env).trace ∧
    (∀ r, env.Println "Hello, World" = Outcome.ret r →
      (main env).trace[1]? = some (Event.New true)) := by
  rw [main_eq_mainPaths]
  simp only [mainPaths, windowPaths, unwind]
  refine ⟨?_, ?_, ?_, ?_, ?_⟩
  · repeat' split
    all_goals simp [helloLine]
  · repeat' split
    all_goals simp [helloLine, Event.isStdout, List.countP_cons]
  · repeat' split
    all_goals simp [helloLine, Event.isStdout]
  · apply allBefore_sound
    repeat' split
    all_goals simp [helloLine, allBefore, Event.isStdout, Event.isToolkitCall]
  · intro r hP
    simp only [hP]
    repeat' split
    all_goals simp [helloLine]

/-- Witness of C3 in the environment `envOk`, whose print call returns. -/
theorem C3_hello_first_witness :
    envOk.Println "Hello, World" = Outcome.ret (13, false) ∧
    (main envOk).trace.head? = some (Event.Stdout "Hello, World\n") ∧
    (main envOk).trace.countP Event.isStdout = 1 ∧
    AllBefore Event.isStdout Event.isToolkitCall (main envOk).trace ∧
    (main envOk).trace[1]? = some (Event.New true) :=
  ⟨rfl, (C3_hello_first envOk).1, (C3_hello_first envOk).2.1, (C3_hello_first envOk).2.2.2.1,
    (C3_hello_first envOk).2.2.2.2 (13, false) rfl⟩

/-- C4: in every run of `main`, `webview.New` is called at most once and only
with the debug argument `true`; in every run in which the print call before it
returns, it is called exactly once, with the debug argument `true`. -/
theorem C4_new_once_debug_true (env : Env) :
    (main env).trace.countP Event.isNew ≤ 1 ∧
    (∀ d, Event.New d ∈ (main env).trace → d = true) ∧
    (∀ r, env.Println "Hello, World" = Outcome.ret r →
      (main env).trace.countP Event.isNew = 1 ∧
      Event.New true ∈ (main env).trace) := by
  rw [main_eq_mainPaths]
  simp only [mainPaths, windowPaths, unwind]
  refine ⟨?_, ?_, ?_⟩
  · repeat' split
    all_goals simp [helloLine, Event.isNew, List.countP_cons]
  · repeat' split
    all_goals simp [helloLine]
  · intro r hP
    simp only [hP]
    refine ⟨?_, ?_⟩
    · repeat' split
      all_goals simp [helloLine, Event.isNew, List.countP_cons]
    · repeat' split
      all_goals simp [helloLine]

/-- Witness of C4 in the environment `envOk`, whose print call returns. -/
theorem C4_new_once_debug_true_witness :
    envOk.Println "Hello, World" = Outcome.ret (13, false) ∧
    (main envOk).trace.countP Event.isNew = 1 ∧
    Event.New true ∈ (main envOk).trace :=
  ⟨rfl, (C4_new_once_debug_true envOk).2.2 (13, false) rfl⟩

/-- C5: in every run of `main` in which the print call returned and `webview.New`
returned a handle `h`,
SetTitle is called exactly once, on `h`, with the exact string
"Minimal Webview Example"; the call stands strictly before every call of Run,
and Run is called as soon as the three configuration calls return. -/
theorem C5_set_title_once_before_run (env : Env) (h : WebView) (r : Nat × Bool)
    (hP : env.Println "Hello, World" = Outcome.ret r)
    (hN : env.New true = Outcome.ret h) :
    (main env).trace.countP Event.isSetTitle = 1 ∧
    (∀ e ∈ (main env).trace, e.isSetTitle = true →
      e = Event.SetTitle h "Minimal Webview Example") ∧
    (main env).trace[2]? = some (Event.SetTitle h "Minimal Webview Example") ∧
    AllBefore Event.isSetTitle Event.isRun (main env).trace ∧
    (env.SetTitle h "Minimal Webview Example" = Outcome.ret () →
      env.SetSize h 800 600 Hint.HintNone = Outcome.ret () →
      env.Navigate h "https://en.m.wikipedia.org/wiki/Main_Page" = Outcome.ret () →
      (main env).trace[5]? = some (Event.Run h)) := by
  rw [main_eq_mainPaths]
  simp only [mainPaths, windowPaths, hP, unwind, hN, title, url]
  refine ⟨?_, ?_, ?_, ?_, ?_⟩
  · repeat' split
    all_goals simp [helloLine, Event.isSetTitle, List.countP_cons]
  · repeat' split
    all_goals simp [helloLine, Event.isSetTitle]
  · repeat' split
    all_goals simp [helloLine]
  · apply allBefore_sound
    repeat' split
    all_goals simp [helloLine, allBefore, Event.isSetTitle, Event.isRun]
  · intro hT hS hV
    simp only [hT, hS, hV]
    repeat' split
    all_goals simp [helloLine]

/-- Witness of C5 in the environment `envOk`. -/
theorem C5_set_title_once_before_run_witness :
    (main envOk).trace.countP Event.isSetTitle = 1 ∧
    (∀ e ∈ (main envOk).trace, e.isSetTitle = true →
      e = Event.SetTitle 7 "Minimal Webview Example") ∧
    (main envOk).trace[2]? = some (Event.SetTitle 7 "Minimal Webview Example") ∧
    AllBefore Event.isSetTitle Event.isRun (main envOk).trace ∧
    (envOk.SetTitle 7 "Minimal Webview Example" = Outcome.ret () →
      envOk.SetSize 7 800 600 Hint.HintNone = Outcome.ret () →
      envOk.Navigate 7 "https://en.m.wikipedia.org/wiki/Main_Page" = Outcome.ret () →
      (main envOk).trace[5]? = some (Event.Run 7)) :=
  C5_set_title_once_before_run envOk 7 (13, false) rfl rfl

/-- C6: in every run of `main` in which the print call returned and `webview.New`
returned a handle `h`
and SetTitle returned, SetSize is called exactly once, on `h`, with width 800,
height 600 and the hint HintNone (not the min, max or fixed hint); the call
stands strictly before every call of Run, and Run is called as soon as SetSize
and Navigate return. -/
theorem C6_set_size_once_before_run (env : Env) (h : WebView) (r : Nat × Bool)
    (hP : env.Println "Hello, World" = Outcome.ret r)
    (hN : env.New true = Outcome.ret h)
    (hT : env.SetTitle h "Minimal Webview Example" = Outcome.ret ()) :
    (main env).trace.countP Event.isSetSize = 1 ∧
    (∀ w width height hint, Event.SetSize w width height hint ∈ (main env).trace →
      w = h ∧ width = 800 ∧ height = 600 ∧ hint = Hint.HintNone ∧
      hint ≠ Hint.HintMin ∧ hint ≠ Hint.HintMax ∧ hint ≠ Hint.HintFixed) ∧
    (main env).trace[3]? = some (Event.SetSize h 800 600 Hint.HintNone) ∧
    AllBefore Event.isSetSize Event.isRun (main env).trace ∧
    (env.SetSize h 800 600 Hint.HintNone = Outcome.ret () →
      env.Navigate h "https://en.m.wikipedia.org/wiki/Main_Page" = Outcome.ret () →
      (main env).trace[5]? = some (Event.Run h)) := by
  rw [main_eq_mainPaths]
  simp only [mainPaths, windowPaths, hP, unwind, hN, title, url, hT]
  refine ⟨?_, ?_, ?_, ?_, ?_⟩
  · repeat' split
    all_goals simp [helloLine, Event.isSetSize, List.countP_cons]
  · repeat' split
    all_goals simp [helloLine]
    all_goals (intro w width height hint hw hwidth hheight hhint; subst hhint; simp [*])
  · repeat' split
    all_goals simp [helloLine]
  · apply allBefore_sound
    repeat' split
    all_goals simp [helloLine, allBefore, Event.isSetSize, Event.isRun]
  · intro hS hV
    simp only [hS, hV]
    repeat' split
    all_goals simp [helloLine]

/-- Witness of C6 in the environment `envOk`. -/
theorem C6_set_size_once_before_run_witness :
    (main envOk).trace.countP Event.isSetSize = 1 ∧
    (∀ w width height hint, Event.SetSize w width height hint ∈ (main envOk).trace →
      w = 7 ∧ width = 800 ∧ height = 600 ∧ hint = Hint.HintNone ∧
      hint ≠ Hint.HintMin ∧ hint ≠ Hint.HintMax ∧ hint ≠ Hint.HintFixed) ∧
    (main envOk).trace[3]? = some (Event.SetSize 7 800 600 Hint.HintNone) ∧
    AllBefore Event.isSetSize Event.isRun (main envOk).trace ∧
    (envOk.SetSize 7 800 600 Hint.HintNone = Outcome.ret () →
      envOk.Navigate 7 "https://en.m.wikipedia.org/wiki/Main_Page" = Outcome.ret () →
      (main envOk).trace[5]? = some (Event.Run 7)) :=
  C6_set_size_once_before_run envOk 7 (13, false) rfl rfl rfl

/-- C7: in every run of `main` in which the print call returned and `webview.New`
returned a handle `h`
and SetTitle and SetSize returned, Navigate is called exactly once, on `h`,
with the exact URL "https://en.m.wikipedia.org/wiki/Main_Page"; the call stands
strictly after the SetTitle call and the SetSize call, both of which were made,
and strictly before every call of Run, which is made as soon as Navigate
returns. -/
theorem C7_navigate_once_in_order (env : Env) (h : WebView) (r : Nat × Bool)
    (hP : env.Println "Hello, World" = Outcome.ret r)
    (hN : env.New true = Outcome.ret h)
    (hT : env.SetTitle h "Minimal Webview Example" = Outcome.ret ())
    (hS : env.SetSize h 800 600 Hint.HintNone = Outcome.ret ()) :
    (main env).trace.countP Event.isNavigate = 1 ∧
    (∀ e ∈ (main env).trace, e.isNavigate = true →
      e = Event.Navigate h "https://en.m.wikipedia.org/wiki/Main_Page") ∧
    (main env).trace[2]? = some (Event.SetTitle h "Minimal Webview Example") ∧
    (main env).trace[3]? = some (Event.SetSize h 800 600 Hint.HintNone) ∧
    (main env).trace[4]? = some (Event.Navigate h "https://en.m.wikipedia.org/wiki/Main_Page") ∧
    AllBefore Event.isSetTitle Event.isNavigate (main env).trace ∧
    AllBefore Event.isSetSize Event.isNavigate (main env).trace ∧
    AllBefore Event.isNavigate Event.isRun (main env).trace ∧
    (env.Navigate h "https://en.m.wikipedia.org/wiki/Main_Page" = Outcome.ret () →
      (main env).trace[5]? = some (Event.Run h)) := by
  rw [main_eq_mainPaths]
  simp only [mainPaths, windowPaths, hP, unwind, hN, title, url, hT, hS]
  refine ⟨?_, ?_, ?_, ?_, ?_, ?_, ?_, ?_, ?_⟩
  · repeat' split
    all_goals simp [helloLine, Event.isNavigate, List.countP_cons]
  · repeat' split
    all_goals simp [helloLine, Event.isNavigate]
  · repeat' split
    all_goals simp [helloLine]
  · repeat' split
    all_goals simp [helloLine]
  · repeat' split
    all_goals simp [helloLine]
  · apply allBefore_sound
    repeat' split
    all_goals simp [helloLine, allBefore, Event.isSetTitle, Event.isNavigate]
  · apply allBefore_sound
    repeat' split
    all_goals simp [helloLine, allBefore, Event.isSetSize, Event.isNavigate]
  · apply allBefore_sound
    repeat' split
    all_goals simp [helloLine, allBefore, Event.isNavigate, Event.isRun]
  · intro hV
    simp only [hV]
    repeat' split
    all_goals simp [helloLine]

/-- Witness of C7 in the environment `envOk`. -/
theorem C7_navigate_once_in_order_witness :
    (main envOk).trace.countP Event.isNavigate = 1 ∧
    (∀ e ∈ (main envOk).trace, e.isNavigate = true →
      e = Event.Navigate 7 "https://en.m.wikipedia.org/wiki/Main_Page") ∧
    (main envOk).trace[2]? = some (Event.SetTitle 7 "Minimal Webview Example") ∧
    (main envOk).trace[3]? = some (Event.SetSize 7 800 600 Hint.HintNone) ∧
    (main envOk).trace[4]? = some (Event.Navigate 7 "https://en.m.wikipedia.org/wiki/Main_Page") ∧
    AllBefore Event.isSetTitle Event.isNavigate (main envOk).trace ∧
    AllBefore Event.isSetSize Event.isNavigate (main envOk).trace ∧
    AllBefore Event.isNavigate Event.isRun (main envOk).trace ∧
    (envOk.Navigate 7 "https://en.m.wikipedia.org/wiki/Main_Page" = Outcome.ret () →
      (main envOk).trace[5]? = some (Event.Run 7)) :=
  C7_navigate_once_in_order envOk 7 (13, false) rfl rfl rfl rfl

/-- C8: in every run of `main` in which the print call returned and `webview.New`
returned a handle `h`
and `main` exits, New occurs once, Destroy occurs once and after New, and,
counting a handle as live from its New event until its Destroy event, exactly
the handle `h` is live at every point from after New up to Destroy and no
handle is live at any point before New or after Destroy; every SetTitle,
SetSize, Navigate and Run call is made on `h` at a point where `h` is live. -/
theorem C8_one_live_window (env : Env) (h : WebView) (r : Nat × Bool)
    (hP : env.Println "Hello, World" = Outcome.ret r)
    (hN : env.New true = Outcome.ret h)
    (hExit : (main env).status ≠ Status.noReturn) :
    (main env).trace.countP Event.isNew = 1 ∧
    (main env).trace.countP Event.isDestroy = 1 ∧
    (main env).trace[1]? = some (Event.New true) ∧
    (main env).trace.getLast? = some (Event.Destroy h) ∧
    AllBefore Event.isNew Event.isDestroy (main env).trace ∧
    (∀ k, k ≤ (main env).trace.length →
      liveAfter h ((main env).trace.take k) =
        if 2 ≤ k ∧ k < (main env).trace.length then [h] else []) ∧
    (∀ k e, (main env).trace[k]? = some e → e.isWindowUse = true →
      e.receiver = some h ∧ liveAfter h ((main env).trace.take k) = [h]) := by
  have hshape := main_exit_trace env h r hP hN hExit
  refine ⟨?_, ?_, ?_, ?_, ?_, ?_, ?_⟩
  · rcases hshape with ht | ht | ht | ht <;> rw [ht] <;>
      simp [helloLine, Event.isNew, List.countP_cons]
  · rcases hshape with ht | ht | ht | ht <;> rw [ht] <;>
      simp [helloLine, Event.isDestroy, List.countP_cons]
  · rcases hshape with ht | ht | ht | ht <;> rw [ht] <;> simp
  · rcases hshape with ht | ht | ht | ht <;> rw [ht] <;> simp
  · apply allBefore_sound
    rcases hshape with ht | ht | ht | ht <;> rw [ht] <;>
      simp [helloLine, allBefore, Event.isDestroy, Event.isNew]
  · intro k hk
    rcases hshape with ht | ht | ht | ht <;> rw [ht] at hk ⊢ <;>
      simp only [List.length_cons, List.length_nil] at hk <;>
      interval_cases k <;> simp [helloLine, liveAfter, liveStep]
  · intro k e hk he
    have key := checkEach_sound
      (fun pre e => !e.isWindowUse ||
        (decide (e.receiver = some h) && decide (liveAfter h pre = [h])))
      _ [] ?_ k e hk
    · simpa [he] using key
    · rcases hshape with ht | ht | ht | ht <;> rw [ht] <;>
        simp [helloLine, checkEach, Event.isWindowUse, Event.isConfig, Event.isRun,
          Event.isSetTitle, Event.isSetSize, Event.isNavigate, Event.receiver, liveAfter,
          liveStep]

/-- Witness of C8 in the environment `envOk`. -/
theorem C8_one_live_window_witness :
    (main envOk).trace.countP Event.isNew = 1 ∧
    (main envOk).trace.countP Event.isDestroy = 1 ∧
    (main envOk).trace[1]? = some (Event.New true) ∧
    (main envOk).trace.getLast? = some (Event.Destroy 7) ∧
    AllBefore Event.isNew Event.isDestroy (main envOk).trace ∧
    (∀ k, k ≤ (main envOk).trace.length →
      liveAfter 7 ((main envOk).trace.take k) =
        if 2 ≤ k ∧ k < (main envOk).trace.length then [7] else []) ∧
    (∀ k e, (main envOk).trace[k]? = some e → e.isWindowUse = true →
      e.receiver = some 7 ∧ liveAfter 7 ((main envOk).trace.take k) = [7]) :=
  C8_one_live_window envOk 7 (13, false) rfl rfl (by decide)

/-- C9: `main` does not look at the value `webview.New` returns.  In a run in
which the print call returned, whatever handle `h` comes back from
`webview.New`, the next call is SetTitle on `h`; the run of `main` with
another handle, whose calls end the same way, is the same run with the handle
replaced, so the calls attempted do not depend on the handle.  A failure of
that SetTitle call is not handled: when it panics only the deferred Destroy
follows and `main` does not return normally, when it never returns the run
ends there; `main` returns normally only when all five calls on the handle
returned, and it writes nothing but the one line to standard output. -/
theorem C9_new_result_unchecked (env : Env) (h : WebView) (r : Nat × Bool)
    (hP : env.Println "Hello, World" = Outcome.ret r)
    (hN : env.New true = Outcome.ret h) :
    (main env).trace.take 3 = [Event.Stdout "Hello, World\n", Event.New true,
      Event.SetTitle h "Minimal Webview Example"] ∧
    (main env).trace.countP Event.isStdout = 1 ∧
    ((main env).status = Status.returned →
      env.SetTitle h "Minimal Webview Example" = Outcome.ret () ∧
      env.SetSize h 800 600 Hint.HintNone = Outcome.ret () ∧
      env.Navigate h "https://en.m.wikipedia.org/wiki/Main_Page" = Outcome.ret () ∧
      env.Run h = Outcome.ret () ∧ env.Destroy h = Outcome.ret ()) ∧
    (env.SetTitle h "Minimal Webview Example" = Outcome.panics →
      (main env).trace = [Event.Stdout "Hello, World\n", Event.New true,
        Event.SetTitle h "Minimal Webview Example", Event.Destroy h] ∧
      (main env).status ≠ Status.returned) ∧
    (env.SetTitle h "Minimal Webview Example" = Outcome.noReturn →
      main env = { trace := [Event.Stdout "Hello, World\n", Event.New true,
        Event.SetTitle h "Minimal Webview Example"], status := Status.noReturn }) ∧
    (∀ (env2 : Env) (h2 : WebView) (r2 : Nat × Bool),
      env2.Println "Hello, World" = Outcome.ret r2 → env2.New true = Outcome.ret h2 →
      env2.SetTitle h2 "Minimal Webview Example" = env.SetTitle h "Minimal Webview Example" →
      env2.SetSize h2 800 600 Hint.HintNone = env.SetSize h 800 600 Hint.HintNone →
      env2.Navigate h2 "https://en.m.wikipedia.org/wiki/Main_Page" =
        env.Navigate h "https://en.m.wikipedia.org/wiki/Main_Page" →
      env2.Run h2 = env.Run h → env2.Destroy h2 = env.Destroy h →
      (main env2).trace = (main env).trace.map (Event.onHandle h2) ∧
      (main env2).status = (main env).status) := by
  refine ⟨?_, ?_, ?_, ?_, ?_, ?_⟩
  · rcases main_trace_shape env h r hP hN with ht | ht | ht | ht | ht | ht | ht | ht <;> rw [ht] <;>
      simp [helloLine, title]
  · rcases main_trace_shape env h r hP hN with ht | ht | ht | ht | ht | ht | ht | ht <;> rw [ht] <;>
      simp [helloLine, Event.isStdout, List.countP_cons]
  · rw [main_eq_mainPaths]
    simp only [mainPaths, windowPaths, hP, unwind, hN, title, url]
    repeat' split
    all_goals simp_all
  · intro hT
    rw [main_eq_mainPaths]
    simp only [mainPaths, windowPaths, hP, unwind, hN, title, url, hT]
    repeat' split
    all_goals simp [helloLine]
  · intro hT
    rw [main_eq_mainPaths]
    simp only [mainPaths, windowPaths, hP, unwind, hN, title, url, hT, helloLine]
  · intro env2 h2 r2 hP2 hN2 hT hS hV hR hD
    rw [main_eq_mainPaths, main_eq_mainPaths]
    simp only [mainPaths, windowPaths, hP, hP2, unwind, hN, hN2, title, url, hT, hS, hV, hR, hD]
    repeat' split
    all_goals simp_all [Event.onHandle, helloLine]

/-- Witness of C9: `webview.New` hands back the null handle, on which SetTitle
panics. -/
theorem C9_new_result_unchecked_witness :
    (main envNullHandle).trace.take 3 = [Event.Stdout "Hello, World\n", Event.New true,
      Event.SetTitle 0 "Minimal Webview Example"] ∧
    (main envNullHandle).trace.countP Event.isStdout = 1 ∧
    ((main envNullHandle).status = Status.returned →
      envNullHandle.SetTitle 0 "Minimal Webview Example" = Outcome.ret () ∧
      envNullHandle.SetSize 0 800 600 Hint.HintNone = Outcome.ret () ∧
      envNullHandle.Navigate 0 "https://en.m.wikipedia.org/wiki/Main_Page" = Outcome.ret () ∧
      envNullHandle.Run 0 = Outcome.ret () ∧ envNullHandle.Destroy 0 = Outcome.ret ()) ∧
    (envNullHandle.SetTitle 0 "Minimal Webview Example" = Outcome.panics →
      (main envNullHandle).trace = [Event.Stdout "Hello, World\n", Event.New true,
        Event.SetTitle 0 "Minimal Webview Example", Event.Destroy 0] ∧
      (main envNullHandle).status ≠ Status.returned) ∧
    (envNullHandle.SetTitle 0 "Minimal Webview Example" = Outcome.noReturn →
      main envNullHandle = { trace := [Event.Stdout "Hello, World\n", Event.New true,
        Event.SetTitle 0 "Minimal Webview Example"], status := Status.noReturn }) ∧
    (∀ (env2 : Env) (h2 : WebView) (r2 : Nat × Bool),
      env2.Println "Hello, World" = Outcome.ret r2 → env2.New true = Outcome.ret h2 →
      env2.SetTitle h2 "Minimal Webview Example" =
        envNullHandle.SetTitle 0 "Minimal Webview Example" →
      env2.SetSize h2 800 600 Hint.HintNone = envNullHandle.SetSize 0 800 600 Hint.HintNone →
      env2.Navigate h2 "https://en.m.wikipedia.org/wiki/Main_Page" =
        envNullHandle.Navigate 0 "https://en.m.wikipedia.org/wiki/Main_Page" →
      env2.Run h2 = envNullHandle.Run 0 → env2.Destroy h2 = envNullHandle.Destroy 0 →
      (main env2).trace = (main envNullHandle).trace.map (Event.onHandle h2) ∧
      (main env2).status = (main envNullHandle).status) :=
  C9_new_result_unchecked envNullHandle 0 (13, false) rfl rfl

/-- C10: in every run of `main` in which the print call returned and `webview.New`
returned a handle `h`,
with the state `Configuring` from creation until Run is called and `Running`
from then on: Run is called at most once, and exactly once when the three
configuration calls return; every SetTitle, SetSize and Navigate call is made
in state `Configuring`; the Run call is made in `Configuring` and leads to
`Running`; and the only call made once `Running` is entered is Destroy, so no
configuration call follows Run. -/
theorem C10_two_state_machine (env : Env) (h : WebView) (r : Nat × Bool)
    (hP : env.Println "Hello, World" = Outcome.ret r)
    (hN : env.New true = Outcome.ret h) :
    (main env).trace.countP Event.isRun ≤ 1 ∧
    (env.SetTitle h "Minimal Webview Example" = Outcome.ret () →
      env.SetSize h 800 600 Hint.HintNone = Outcome.ret () →
      env.Navigate h "https://en.m.wikipedia.org/wiki/Main_Page" = Outcome.ret () →
      (main env).trace.countP Event.isRun = 1) ∧
    (∀ k e, (main env).trace[k]? = some e → e.isConfig = true →
      phaseAfter ((main env).trace.take k) = some Phase.Configuring) ∧
    (∀ k e, (main env).trace[k]? = some e → e.isRun = true →
      phaseAfter ((main env).trace.take k) = some Phase.Configuring ∧
      phaseAfter ((main env).trace.take (k + 1)) = some Phase.Running) ∧
    (∀ k e, (main env).trace[k]? = some e →
      phaseAfter ((main env).trace.take k) = some Phase.Running → e = Event.Destroy h) ∧
    AllBefore Event.isConfig Event.isRun (main env).trace := by
  have hshape := main_trace_shape env h r hP hN
  refine ⟨?_, ?_, ?_, ?_, ?_, ?_⟩
  · rcases hshape with ht | ht | ht | ht | ht | ht | ht | ht <;> rw [ht] <;>
      simp [helloLine, Event.isRun, List.countP_cons]
  · intro hT hS hV
    rw [main_eq_mainPaths]
    simp only [mainPaths, windowPaths, hP, unwind, hN, title, url, hT, hS, hV]
    repeat' split
    all_goals simp [helloLine, Event.isRun, List.countP_cons]
  · intro k e hk he
    have key := checkEach_sound
      (fun pre e => !e.isConfig || decide (phaseAfter pre = some Phase.Configuring))
      _ [] ?_ k e hk
    · simpa [he] using key
    · rcases hshape with ht | ht | ht | ht | ht | ht | ht | ht <;> rw [ht] <;>
        simp [helloLine, checkEach, Event.isConfig, Event.isSetTitle, Event.isSetSize,
          Event.isNavigate, phaseAfter, phaseStep]
  · intro k e hk he
    have key := checkEach_sound
      (fun pre e => !e.isRun || (decide (phaseAfter pre = some Phase.Configuring) &&
        decide (phaseAfter (pre ++ [e]) = some Phase.Running)))
      _ [] ?_ k e hk
    · have hk1 : (main env).trace.take (k + 1) = (main env).trace.take k ++ [e] := by
        rw [List.take_succ, hk]; rfl
      rw [hk1]
      simpa [he] using key
    · rcases hshape with ht | ht | ht | ht | ht | ht | ht | ht <;> rw [ht] <;>
        simp [helloLine, checkEach, Event.isRun, phaseAfter, phaseStep]
  · intro k e hk hp
    have key := checkEach_sound
      (fun pre e => !decide (phaseAfter pre = some Phase.Running) || decide (e = Event.Destroy h))
      _ [] ?_ k e hk
    · simpa [hp] using key
    · rcases hshape with ht | ht | ht | ht | ht | ht | ht | ht <;> rw [ht] <;>
        simp [helloLine, checkEach, phaseAfter, phaseStep]
  · apply allBefore_sound
    rcases hshape with ht | ht | ht | ht | ht | ht | ht | ht <;> rw [ht] <;>
      simp [helloLine, allBefore, Event.isConfig, Event.isSetTitle, Event.isSetSize,
        Event.isNavigate, Event.isRun]

/-- Witness of C10 in the environment `envOk`. -/
theorem C10_two_state_machine_witness :
    (main envOk).trace.countP Event.isRun ≤ 1 ∧
    (envOk.SetTitle 7 "Minimal Webview Example" = Outcome.ret () →
      envOk.SetSize 7 800 600 Hint.HintNone = Outcome.ret () →
      envOk.Navigate 7 "https://en.m.wikipedia.org/wiki/Main_Page" = Outcome.ret () →
      (main envOk).trace.countP Event.isRun = 1) ∧
    (∀ k e, (main envOk).trace[k]? = some e → e.isConfig = true →
      phaseAfter ((main envOk).trace.take k) = some Phase.Configuring) ∧
    (∀ k e, (main envOk).trace[k]? = some e → e.isRun = true →
      phaseAfter ((main envOk).trace.take k) = some Phase.Configuring ∧
      phaseAfter ((main envOk).trace.take (k + 1)) = some Phase.Running) ∧
    (∀ k e, (main envOk).trace[k]? = some e →
      phaseAfter ((main envOk).trace.take k) = some Phase.Running → e = Event.Destroy 7) ∧
    AllBefore Event.isConfig Event.isRun (main envOk).trace :=
  C10_two_state_machine envOk 7 (13, false) rfl rfl

end StlOrganizer
